import Mathlib

/-!
# HashComparer: a verification development

Shallow embedding of `main.go`: `computeHash` (open the file, stream it through an MD5 and a
SHA-256 accumulator with `io.Copy (io.MultiWriter ..)`, hex-encode both sums) and the two button
handlers of the window (`Compute Hash` and `Compare Files`).

The Go standard library pieces the program calls (`crypto/md5`, `crypto/sha256`,
`encoding/hex`, `io.Copy`, `io.MultiWriter`, `os.Open`) are modelled here as executable
definitions: digests are block-buffered exactly like the library's `digest` structs, the file
system is a map from path to the outcome of `os.Open` together with the sequence of results the
successive `Read` calls deliver.
-/

namespace HashComparer

/-! ## Machine words and bytes -/

/-- A byte (Go `byte`). -/
abbrev Byte := Fin 256

/-- Addition of two Go `uint32` values. -/
def add32 (a b : Nat) : Nat := (a + b) % 2 ^ 32

/-- Bitwise complement of a Go `uint32` value. -/
def not32 (a : Nat) : Nat := (a % 2 ^ 32) ^^^ 0xffffffff

/-- The function `bits.RotateLeft32 x k` for `0 ≤ k < 32`. -/
def rotl32 (x k : Nat) : Nat := ((x <<< k) % 2 ^ 32) ||| ((x % 2 ^ 32) >>> (32 - k))

/-- The function `bits.RotateLeft32 x (-k)` for `0 < k < 32`: `uint(-k) & 31 = 32 - k`. -/
def rotr32 (x k : Nat) : Nat := rotl32 x (32 - k)

/-- The byte holding the low eight bits of `v`. -/
def toByte (v : Nat) : Byte := Fin.ofNat (v % 256)

/-- The function `byteorder.LePutUint32`. -/
def lePutUint32 (v : Nat) : List Byte :=
  [toByte v, toByte (v >>> 8), toByte (v >>> 16), toByte (v >>> 24)]

/-- The function `byteorder.BePutUint32`. -/
def bePutUint32 (v : Nat) : List Byte :=
  [toByte (v >>> 24), toByte (v >>> 16), toByte (v >>> 8), toByte v]

/-- The function `byteorder.LePutUint64`. -/
def lePutUint64 (v : Nat) : List Byte :=
  lePutUint32 v ++ lePutUint32 (v >>> 32)

/-- The function `byteorder.BePutUint64`. -/
def bePutUint64 (v : Nat) : List Byte :=
  bePutUint32 (v >>> 32) ++ bePutUint32 v

/-- The function `byteorder.LeUint32` on the four bytes starting at offset `j` of `q`. -/
def leUint32 (q : List Byte) (j : Nat) : Nat :=
  (q.getD j 0).val ||| ((q.getD (j + 1) 0).val <<< 8) |||
    ((q.getD (j + 2) 0).val <<< 16) ||| ((q.getD (j + 3) 0).val <<< 24)

/-- The function `byteorder.BeUint32` on the four bytes starting at offset `j` of `q`. -/
def beUint32 (q : List Byte) (j : Nat) : Nat :=
  (q.getD (j + 3) 0).val ||| ((q.getD (j + 2) 0).val <<< 8) |||
    ((q.getD (j + 1) 0).val <<< 16) ||| ((q.getD j 0).val <<< 24)

/-! ## The block-buffered digest shared by `crypto/md5` and `crypto/sha256`

Both packages keep a `digest` struct with the chaining value, a 64-byte buffer `x` of which
the first `nx` bytes are pending, and the total length `len` (a `uint64`).  The buffer is kept
here as the list `x[:nx]`, so `nx = x.length`. -/

/-- The `digest` struct: chaining value `s`, pending bytes `x[:nx]`, byte count `len`. -/
structure Digest (σ : Type) where
  s : σ
  x : List Byte
  len : Nat

/-- The `BlockSize` (MD5) and `chunk` (SHA-256) constant: 64 bytes. -/
def BlockSize : Nat := 64

/-- The loop of `blockGeneric`: compress the leading 64-byte blocks of `p`, one per round. -/
def blockLoop {σ : Type} (compress : σ → List Byte → σ) : Nat → σ → List Byte → σ
  | 0, s, _ => s
  | n + 1, s, p => blockLoop compress n (compress s (p.take BlockSize)) (p.drop BlockSize)

/-- The function `block`: every whole 64-byte block of `p` is compressed, in order. -/
def block {σ : Type} (compress : σ → List Byte → σ) (s : σ) (p : List Byte) : σ :=
  blockLoop compress (p.length / BlockSize) s p

/-- The method `(*digest).Write`: top up the pending buffer and compress it when full, compress
the whole blocks of what is left of `p`, keep the remainder pending. -/
def Digest.Write {σ : Type} (compress : σ → List Byte → σ) (d : Digest σ) (p : List Byte) :
    Digest σ :=
  let len := (d.len + p.length) % 2 ^ 64
  let r1 : σ × List Byte × List Byte :=
    if d.x.length > 0 then
      let n := min (BlockSize - d.x.length) p.length
      let x := d.x ++ p.take n
      if x.length = BlockSize then (block compress d.s x, [], p.drop n)
      else (d.s, x, p.drop n)
    else (d.s, d.x, p)
  let r2 : σ × List Byte :=
    if r1.2.2.length ≥ BlockSize then
      let n := r1.2.2.length / BlockSize * BlockSize
      (block compress r1.1 (r1.2.2.take n), r1.2.2.drop n)
    else (r1.1, r1.2.2)
  let x2 := if r2.2.length > 0 then r2.2 else r1.2.1
  { s := r2.1, x := x2, len := len }

/-! ## MD5 (`crypto/md5`) -/

namespace md5

/-- The additive constants of the 64 steps of `blockGeneric`. -/
def K : List Nat :=
  [0xd76aa478, 0xe8c7b756, 0x242070db, 0xc1bdceee] ++
  [0xf57c0faf, 0x4787c62a, 0xa8304613, 0xfd469501] ++
  [0x698098d8, 0x8b44f7af, 0xffff5bb1, 0x895cd7be] ++
  [0x6b901122, 0xfd987193, 0xa679438e, 0x49b40821] ++
  [0xf61e2562, 0xc040b340, 0x265e5a51, 0xe9b6c7aa] ++
  [0xd62f105d, 0x02441453, 0xd8a1e681, 0xe7d3fbc8] ++
  [0x21e1cde6, 0xc33707d6, 0xf4d50d87, 0x455a14ed] ++
  [0xa9e3e905, 0xfcefa3f8, 0x676f02d9, 0x8d2a4c8a] ++
  [0xfffa3942, 0x8771f681, 0x6d9d6122, 0xfde5380c] ++
  [0xa4beea44, 0x4bdecfa9, 0xf6bb4b60, 0xbebfbc70] ++
  [0x289b7ec6, 0xeaa127fa, 0xd4ef3085, 0x04881d05] ++
  [0xd9d4d039, 0xe6db99e5, 0x1fa27cf8, 0xc4ac5665] ++
  [0xf4292244, 0x432aff97, 0xab9423a7, 0xfc93a039] ++
  [0x655b59c3, 0x8f0ccc92, 0xffeff47d, 0x85845dd1] ++
  [0x6fa87e4f, 0xfe2ce6e0, 0xa3014314, 0x4e0811a1] ++
  [0xf7537e82, 0xbd3af235, 0x2ad7d2bb, 0xeb86d391]

/-- The rotation amounts of the 64 steps of `blockGeneric`. -/
def S : List Nat :=
  [7, 12, 17, 22, 7, 12, 17, 22, 7, 12, 17, 22, 7, 12, 17, 22,
   5, 9, 14, 20, 5, 9, 14, 20, 5, 9, 14, 20, 5, 9, 14, 20,
   4, 11, 16, 23, 4, 11, 16, 23, 4, 11, 16, 23, 4, 11, 16, 23,
   6, 10, 15, 21, 6, 10, 15, 21, 6, 10, 15, 21, 6, 10, 15, 21]

/-- The chaining value `[4]uint32`. -/
structure State where
  a : Nat
  b : Nat
  c : Nat
  d : Nat
deriving DecidableEq, Repr

/-- Step `i` of `blockGeneric` on the block words `x`: the unrolled line
`a = b + RotateLeft32(f(b,c,d) + a + x[g] + K[i], S[i])`, after which the four registers
exchange roles. -/
def step (x : List Nat) (st : State) (i : Nat) : State :=
  let f :=
    if i < 16 then ((st.c ^^^ st.d) &&& st.b) ^^^ st.d
    else if i < 32 then ((st.b ^^^ st.c) &&& st.d) ^^^ st.c
    else if i < 48 then st.b ^^^ st.c ^^^ st.d
    else st.c ^^^ (st.b ||| not32 st.d)
  let g :=
    if i < 16 then i
    else if i < 32 then (5 * i + 1) % 16
    else if i < 48 then (3 * i + 5) % 16
    else (7 * i) % 16
  let t := add32 (add32 (add32 f st.a) (x.getD g 0)) (K.getD i 0)
  { a := st.d, b := add32 st.b (rotl32 t (S.getD i 0)), c := st.b, d := st.c }

/-- One round of the loop of `blockGeneric`: load the sixteen little-endian words of the block
`q`, run the 64 steps, add the saved state. -/
def compress (s : State) (q : List Byte) : State :=
  let x := (List.range 16).map fun j => leUint32 q (4 * j)
  let r := (List.range 64).foldl (step x) s
  { a := add32 r.a s.a, b := add32 r.b s.b, c := add32 r.c s.c, d := add32 r.d s.d }

/-- The function `md5.New` (after `Reset`). -/
def New : Digest State :=
  { s := { a := 0x67452301, b := 0xefcdab89, c := 0x98badcfe, d := 0x10325476 },
    x := [], len := 0 }

/-- The method `Write` of the MD5 digest. -/
def Write (d : Digest State) (p : List Byte) : Digest State := Digest.Write compress d p

/-- The slice `tmp[:1+pad+8]` of `checkSum`: the `0x80` marker, `pad = (55 - len) % 64` zero
bytes (the subtraction is in `uint64`), and the length in bits, little-endian. -/
def padding (len : Nat) : List Byte :=
  let pad := ((55 + 2 ^ 64 - len % 2 ^ 64) % 2 ^ 64) % 64
  (0x80 : Byte) :: (List.replicate pad (0 : Byte) ++ lePutUint64 ((len <<< 3) % 2 ^ 64))

/-- The method `Sum(nil)` of the MD5 digest (`checkSum` on a copy): write the padding, then
serialise the state little-endian.  The `panic("d.nx != 0")` of `checkSum` is left out: it
cannot be reached (theorem `md5_padding_flushes`). -/
def Sum (d : Digest State) : List Byte :=
  let d1 := Write d (padding d.len)
  lePutUint32 d1.s.a ++ lePutUint32 d1.s.b ++ lePutUint32 d1.s.c ++ lePutUint32 d1.s.d

end md5

/-! ## SHA-256 (`crypto/sha256`) -/

namespace sha256

/-- The table `_K` of round constants. -/
def K : List Nat :=
  [0x428a2f98, 0x71374491, 0xb5c0fbcf, 0xe9b5dba5] ++
  [0x3956c25b, 0x59f111f1, 0x923f82a4, 0xab1c5ed5] ++
  [0xd807aa98, 0x12835b01, 0x243185be, 0x550c7dc3] ++
  [0x72be5d74, 0x80deb1fe, 0x9bdc06a7, 0xc19bf174] ++
  [0xe49b69c1, 0xefbe4786, 0x0fc19dc6, 0x240ca1cc] ++
  [0x2de92c6f, 0x4a7484aa, 0x5cb0a9dc, 0x76f988da] ++
  [0x983e5152, 0xa831c66d, 0xb00327c8, 0xbf597fc7] ++
  [0xc6e00bf3, 0xd5a79147, 0x06ca6351, 0x14292967] ++
  [0x27b70a85, 0x2e1b2138, 0x4d2c6dfc, 0x53380d13] ++
  [0x650a7354, 0x766a0abb, 0x81c2c92e, 0x92722c85] ++
  [0xa2bfe8a1, 0xa81a664b, 0xc24b8b70, 0xc76c51a3] ++
  [0xd192e819, 0xd6990624, 0xf40e3585, 0x106aa070] ++
  [0x19a4c116, 0x1e376c08, 0x2748774c, 0x34b0bcb5] ++
  [0x391c0cb3, 0x4ed8aa4a, 0x5b9cca4f, 0x682e6ff3] ++
  [0x748f82ee, 0x78a5636f, 0x84c87814, 0x8cc70208] ++
  [0x90befffa, 0xa4506ceb, 0xbef9a3f7, 0xc67178f2]

/-- The chaining value `[8]uint32`. -/
structure State where
  h0 : Nat
  h1 : Nat
  h2 : Nat
  h3 : Nat
  h4 : Nat
  h5 : Nat
  h6 : Nat
  h7 : Nat
deriving DecidableEq, Repr

/-- The message schedule entries `w[16..63]`, computed from the earlier entries: iteration
`k` appends `w[k+16]`. -/
def extend (w : List Nat) (k : Nat) : List Nat :=
  let i := k + 16
  let v1 := w.getD (i - 2) 0
  let t1 := (rotr32 v1 17) ^^^ (rotr32 v1 19) ^^^ (v1 >>> 10)
  let v2 := w.getD (i - 15) 0
  let t2 := (rotr32 v2 7) ^^^ (rotr32 v2 18) ^^^ (v2 >>> 3)
  w ++ [add32 (add32 (add32 t1 (w.getD (i - 7) 0)) t2) (w.getD (i - 16) 0)]

/-- Round `i` of the compression loop of `blockGeneric`. -/
def step (w : List Nat) (st : State) (i : Nat) : State :=
  let t1 := add32 (add32 (add32 (add32 st.h7
      ((rotr32 st.h4 6) ^^^ (rotr32 st.h4 11) ^^^ (rotr32 st.h4 25)))
      ((st.h4 &&& st.h5) ^^^ (not32 st.h4 &&& st.h6))) (K.getD i 0)) (w.getD i 0)
  let t2 := add32 ((rotr32 st.h0 2) ^^^ (rotr32 st.h0 13) ^^^ (rotr32 st.h0 22))
      ((st.h0 &&& st.h1) ^^^ (st.h0 &&& st.h2) ^^^ (st.h1 &&& st.h2))
  { h0 := add32 t1 t2, h1 := st.h0, h2 := st.h1, h3 := st.h2,
    h4 := add32 st.h3 t1, h5 := st.h4, h6 := st.h5, h7 := st.h6 }

/-- One round of the outer loop of `blockGeneric`: load sixteen big-endian words, extend the
schedule to 64 words, run the 64 rounds, add the result to the chaining value. -/
def compress (s : State) (q : List Byte) : State :=
  let w16 := (List.range 16).map fun j => beUint32 q (4 * j)
  let w := (List.range 48).foldl extend w16
  let r := (List.range 64).foldl (step w) s
  { h0 := add32 s.h0 r.h0, h1 := add32 s.h1 r.h1, h2 := add32 s.h2 r.h2,
    h3 := add32 s.h3 r.h3, h4 := add32 s.h4 r.h4, h5 := add32 s.h5 r.h5,
    h6 := add32 s.h6 r.h6, h7 := add32 s.h7 r.h7 }

/-- The function `sha256.New` (after `Reset`). -/
def New : Digest State :=
  { s := { h0 := 0x6a09e667, h1 := 0xbb67ae85, h2 := 0x3c6ef372, h3 := 0xa54ff53a,
           h4 := 0x510e527f, h5 := 0x9b05688c, h6 := 0x1f83d9ab, h7 := 0x5be0cd19 },
    x := [], len := 0 }

/-- The method `Write` of the SHA-256 digest. -/
def Write (d : Digest State) (p : List Byte) : Digest State := Digest.Write compress d p

/-- The slice `padlen = tmp[:t+8]` of `checkSum`: the `0x80` marker, zero bytes up to 56
modulo 64 (`t` bytes with the marker), and the length in bits, big-endian. -/
def padding (len : Nat) : List Byte :=
  let t := if len % 64 < 56 then 56 - len % 64 else 64 + 56 - len % 64
  (0x80 : Byte) :: (List.replicate (t - 1) (0 : Byte) ++ bePutUint64 ((len <<< 3) % 2 ^ 64))

/-- The method `Sum(nil)` of the SHA-256 digest (`checkSum` on a copy): write the padding,
then serialise the state big-endian.  The `panic("d.nx != 0")` of `checkSum` is left out: it
cannot be reached (theorem `sha256_padding_flushes`). -/
def Sum (d : Digest State) : List Byte :=
  let d1 := Write d (padding d.len)
  bePutUint32 d1.s.h0 ++ bePutUint32 d1.s.h1 ++ bePutUint32 d1.s.h2 ++ bePutUint32 d1.s.h3 ++
    bePutUint32 d1.s.h4 ++ bePutUint32 d1.s.h5 ++ bePutUint32 d1.s.h6 ++ bePutUint32 d1.s.h7

end sha256

/-! ## `encoding/hex` -/

namespace hex

/-- The constant `hextable`. -/
def hextable : List Char := "0123456789abcdef".toList

/-- The function `hex.Encode`: two characters per byte, high nibble first. -/
def Encode : List Byte → List Char
  | [] => []
  | v :: rest => hextable.getD (v.val >>> 4) '0' :: hextable.getD (v.val &&& 0x0f) '0' :: Encode rest

/-- The function `hex.EncodeToString`. -/
def EncodeToString (src : List Byte) : String := String.mk (Encode src)

end hex

/-! ## The file system, `os.Open`, `io.MultiWriter` and `io.Copy` -/

/-- A Go `error` value, told apart by its message. -/
structure Error where
  msg : String
deriving DecidableEq, Repr

/-- The error result `er` of one `Read` call: nil, `io.EOF`, or any other error. -/
inductive ReadErr where
  | nil
  | EOF
  | fail (e : Error)
deriving DecidableEq, Repr

/-- What one call `src.Read(buf)` returns: the `nr` bytes `buf[0:nr]` and the error `er`. -/
structure ReadResult where
  data : List Byte
  er : ReadErr
deriving DecidableEq, Repr

/-- An opened file: the results of its successive `Read` calls; every later call returns
`(0, io.EOF)`. -/
abbrev File := List ReadResult

/-- The world outside the program: for each path what `os.Open` returns (an error, or a file
with the reads it will deliver), and the trace of the paths passed to `os.Open` so far. -/
structure World where
  files : String → Except Error File
  opened : List String

/-- The call `os.Open(name)`: looks the path up and records the call. -/
def osOpen (w : World) (name : String) : Except Error File × World :=
  (w.files name, { w with opened := w.opened ++ [name] })

/-- The `Write` method of `io.MultiWriter(w1, w2)` for two writers that, like every
`hash.Hash`, consume all of `p` and never return an error: `p` goes to `w1`, then to `w2`. -/
def multiWriter {α β : Type} (w1 : α → List Byte → α) (w2 : β → List Byte → β) :
    α × β → List Byte → α × β :=
  fun s p => (w1 s.1 p, w2 s.2 p)

/-- The loop of `io.Copy(dst, src)`: each `Read` result with `nr > 0` is written to `dst`;
the loop ends at the first non-nil `er`, with a nil error when `er` is `io.EOF` and with `er`
itself otherwise. -/
def ioCopy {σ : Type} (write : σ → List Byte → σ) : σ → File → σ × Option Error
  | s, [] => (s, none)
  | s, r :: rest =>
    let s1 := if r.data.length > 0 then write s r.data else s
    match r.er with
    | ReadErr.nil => ioCopy write s1 rest
    | ReadErr.EOF => (s1, none)
    | ReadErr.fail e => (s1, some e)

/-! ## `computeHash` -/

/-- The function `computeHash` of `main.go`: returns the triple `(md5Sum, sha256Sum, err)` and
the world after the call. -/
def computeHash (w : World) (filename : String) : (String × String × Option Error) × World :=
  match osOpen w filename with
  | (Except.error err, w1) => (("", "", some err), w1)
  | (Except.ok file, w1) =>
    let md5Hash := md5.New
    let sha256Hash := sha256.New
    match ioCopy (multiWriter md5.Write sha256.Write) (md5Hash, sha256Hash) file with
    | (_, some err) => (("", "", some err), w1)
    | (hs, none) =>
      let md5Sum := hex.EncodeToString (md5.Sum hs.1)
      let sha256Sum := hex.EncodeToString (sha256.Sum hs.2)
      ((md5Sum, sha256Sum, none), w1)

/-! ## The window and its two handlers -/

/-- The theme colours the status label takes. -/
inductive Color where
  | TextColor
  | PrimaryColor
  | ErrorColor
  | WarningColor
deriving DecidableEq, Repr

/-- The widgets of the window that the handlers read or write: the two entries, the four
digest labels, the status label (text, colour, hidden flag), the progress bar's hidden flag,
and the errors shown so far with `dialog.ShowError`. -/
structure UI where
  file1Entry : String
  file2Entry : String
  md5Label1 : String
  sha256Label1 : String
  md5Label2 : String
  sha256Label2 : String
  statusText : String
  statusColor : Color
  statusHidden : Bool
  progressHidden : Bool
  errorDialogs : List Error

/-- The window as `main` builds it. -/
def initialUI : UI :=
  { file1Entry := "", file2Entry := "",
    md5Label1 := "MD5 (File 1):", sha256Label1 := "SHA256 (File 1):",
    md5Label2 := "MD5 (File 2):", sha256Label2 := "SHA256 (File 2):",
    statusText := "", statusColor := Color.TextColor, statusHidden := true,
    progressHidden := true, errorDialogs := [] }

/-- The call `dialog.ShowError(err, w)`. -/
def ShowError (ui : UI) (err : Error) : UI :=
  { ui with errorDialogs := ui.errorDialogs ++ [err] }

/-- The handler of the `Compute Hash` button. -/
def computeButton (ui : UI) (w : World) : UI × World :=
  let filename1 := ui.file1Entry
  let filename2 := ui.file2Entry
  if filename1 = "" ∧ filename2 = "" then
    (ShowError ui ⟨"no file selected"⟩, w)
  else
    -- the block for file 1; the flag says whether the handler returned inside it
    let r1 : UI × World × Bool :=
      if filename1 ≠ "" then
        match computeHash w filename1 with
        | ((_, _, some err), w1) => (ShowError ui err, w1, true)
        | ((md5Sum, sha256Sum, none), w1) =>
          ({ ui with md5Label1 := "MD5 (File 1): " ++ md5Sum,
                     sha256Label1 := "SHA256 (File 1): " ++ sha256Sum }, w1, false)
      else (ui, w, false)
    if r1.2.2 then (r1.1, r1.2.1)
    else if filename2 ≠ "" then
      match computeHash r1.2.1 filename2 with
      | ((_, _, some err), w2) => (ShowError r1.1 err, w2)
      | ((md5Sum, sha256Sum, none), w2) =>
        ({ r1.1 with md5Label2 := "MD5 (File 2): " ++ md5Sum,
                     sha256Label2 := "SHA256 (File 2): " ++ sha256Sum }, w2)
    else (r1.1, r1.2.1)

/-- The handler of the `Compare Files` button, together with the goroutine it starts, run to
its end (the one-second sleep has no effect on the state). -/
def compareButton (ui : UI) (w : World) : UI × World :=
  let file1 := ui.file1Entry
  let file2 := ui.file2Entry
  if file1 = "" ∧ file2 = "" then
    (ShowError ui ⟨"no files selected"⟩, w)
  else
    let ui0 := { ui with progressHidden := false }
    -- var md5_1, sha256_1, md5_2, sha256_2 string; var err1, err2 error
    let c1 : (String × String × Option Error) × World :=
      if file1 ≠ "" then computeHash w file1 else (("", "", none), w)
    let c2 : (String × String × Option Error) × World :=
      if file2 ≠ "" then computeHash c1.2 file2 else (("", "", none), c1.2)
    let md5_1 := c1.1.1
    let sha256_1 := c1.1.2.1
    let err1 := c1.1.2.2
    let md5_2 := c2.1.1
    let sha256_2 := c2.1.2.1
    let err2 := c2.1.2.2
    let ui1 :=
      if file1 ≠ "" ∧ err1 = none then
        { ui0 with md5Label1 := "MD5 (File 1): " ++ md5_1,
                   sha256Label1 := "SHA256 (File 1): " ++ sha256_1 }
      else ui0
    let ui2 :=
      if file2 ≠ "" ∧ err2 = none then
        { ui1 with md5Label2 := "MD5 (File 2): " ++ md5_2,
                   sha256Label2 := "SHA256 (File 2): " ++ sha256_2 }
      else ui1
    let ui3 := { ui2 with statusHidden := false }
    let ui4 :=
      if file1 ≠ "" ∧ file2 ≠ "" then
        let areEqual := md5_1 = md5_2 ∧ sha256_1 = sha256_2
        if areEqual then
          { ui3 with statusText := "The Files Are The Same", statusColor := Color.PrimaryColor }
        else
          { ui3 with statusText := "The Files Are Different", statusColor := Color.ErrorColor }
      else
        { ui3 with statusText := "Comparison requires two files",
                   statusColor := Color.WarningColor }
    -- statusLabel.Refresh() repaints the label; deferred: progressBar.Hide()
    ({ ui4 with progressHidden := true }, c2.2)

/-! ## Specification-level view of the digest buffer -/

/-- The normal form of a digest that holds chaining value `s` and byte string `buf` not yet
compressed: all whole blocks of `buf` compressed, the remainder (fewer than 64 bytes) pending. -/
def absorb {σ : Type} (compress : σ → List Byte → σ) (s : σ) (buf : List Byte) : σ × List Byte :=
  (blockLoop compress (buf.length / BlockSize) s buf,
   buf.drop (buf.length / BlockSize * BlockSize))

/-- The representation invariant of a digest: fewer than 64 bytes pending (`nx < BlockSize`),
a byte count that fits a `uint64`, and as many pending bytes as the count modulo 64. -/
def Digest.Valid {σ : Type} (d : Digest σ) : Prop :=
  d.x.length < BlockSize ∧ d.len < 2 ^ 64 ∧ d.x.length = d.len % BlockSize

/-! ## Specification-level view of a file -/

/-- The chunks the copy loop receives from a file: the data of each `Read`, up to and
including the first one whose error is not nil. -/
def fileChunks : File → List (List Byte)
  | [] => []
  | r :: rest =>
    match r.er with
    | ReadErr.nil => r.data :: fileChunks rest
    | _ => [r.data]

/-- The read error of a file: the first non-nil `er` when it is not `io.EOF`. -/
def fileError : File → Option Error
  | [] => none
  | r :: rest =>
    match r.er with
    | ReadErr.nil => fileError rest
    | ReadErr.EOF => none
    | ReadErr.fail e => some e

/-- The content of a file: the bytes its reads deliver, in order. -/
def fileContent (f : File) : List Byte := (fileChunks f).flatten

/-- The MD5 string of a byte sequence written to a fresh digest in one chunk. -/
def md5String (content : List Byte) : String :=
  hex.EncodeToString (md5.Sum (md5.Write md5.New content))

/-- The SHA-256 string of a byte sequence written to a fresh digest in one chunk. -/
def sha256String (content : List Byte) : String :=
  hex.EncodeToString (sha256.Sum (sha256.Write sha256.New content))

/-- A file read in the given chunks, every `Read` returning a nil error, then `io.EOF`. -/
def fileOfChunks (chunks : List (List Byte)) : File :=
  chunks.map fun c => { data := c, er := ReadErr.nil }

/-- The character is one of `0`-`9`, `a`-`f`. -/
def isLowerHex (ch : Char) : Prop :=
  (48 ≤ ch.toNat ∧ ch.toNat ≤ 57) ∨ (97 ≤ ch.toNat ∧ ch.toNat ≤ 102)

/-- What `computeHash` returns for a path, read off the outcome of `os.Open`: the open error;
or the read error; or the digests of the content written in one chunk. -/
def hashResult : Except Error File → String × String × Option Error
  | Except.error e => ("", "", some e)
  | Except.ok f =>
    match fileError f with
    | some e => ("", "", some e)
    | none => (md5String (fileContent f), sha256String (fileContent f), none)

/-- The triple the `Compare Files` goroutine holds for one entry: the result of `computeHash`
when the path is non-empty, and the zero values `("", "", nil)` otherwise. -/
def hashIfGiven (w : World) (file : String) : String × String × Option Error :=
  if file ≠ "" then (computeHash w file).1 else ("", "", none)

/-- The window after one run of the `Compare Files` handler with at least one path given,
written field by field from the two triples `r1`, `r2` the goroutine holds. -/
def compareDisplay (ui : UI) (r1 r2 : String × String × Option Error) : UI :=
  { file1Entry := ui.file1Entry,
    file2Entry := ui.file2Entry,
    md5Label1 :=
      if ui.file1Entry ≠ "" ∧ r1.2.2 = none then "MD5 (File 1): " ++ r1.1 else ui.md5Label1,
    sha256Label1 :=
      if ui.file1Entry ≠ "" ∧ r1.2.2 = none then "SHA256 (File 1): " ++ r1.2.1
      else ui.sha256Label1,
    md5Label2 :=
      if ui.file2Entry ≠ "" ∧ r2.2.2 = none then "MD5 (File 2): " ++ r2.1 else ui.md5Label2,
    sha256Label2 :=
      if ui.file2Entry ≠ "" ∧ r2.2.2 = none then "SHA256 (File 2): " ++ r2.2.1
      else ui.sha256Label2,
    statusText :=
      if ui.file1Entry ≠ "" ∧ ui.file2Entry ≠ "" then
        if r1.1 = r2.1 ∧ r1.2.1 = r2.2.1 then "The Files Are The Same"
        else "The Files Are Different"
      else "Comparison requires two files",
    statusColor :=
      if ui.file1Entry ≠ "" ∧ ui.file2Entry ≠ "" then
        if r1.1 = r2.1 ∧ r1.2.1 = r2.2.1 then Color.PrimaryColor else Color.ErrorColor
      else Color.WarningColor,
    statusHidden := false,
    progressHidden := true,
    errorDialogs := ui.errorDialogs }

/-! ## What the window displays -/

/-- The texts of the four digest labels. -/
def digestLabels (ui : UI) : String × String × String × String :=
  (ui.md5Label1, ui.sha256Label1, ui.md5Label2, ui.sha256Label2)

/-- The comparison status: text, colour and hidden flag of the status label. -/
def comparisonStatus (ui : UI) : String × Color × Bool :=
  (ui.statusText, ui.statusColor, ui.statusHidden)

/-! ## Concrete worlds and windows used to exercise the theorems -/

/-- A world with four paths: `a.txt` holds `abc` read in two chunks, `b.txt` holds `abc` read
in one chunk, `c.txt` fails in the middle of reading, and every other path does not exist. -/
def sampleWorld : World :=
  { files := fun p =>
      if p = "a.txt" then Except.ok (fileOfChunks [[0x61], [0x62, 0x63]])
      else if p = "b.txt" then Except.ok (fileOfChunks [[0x61, 0x62, 0x63]])
      else if p = "c.txt" then
        Except.ok [{ data := [0x61], er := ReadErr.nil },
                   { data := [], er := ReadErr.fail ⟨"read c.txt: input/output error"⟩ }]
      else Except.error ⟨"open: no such file or directory"⟩,
    opened := [] }

/-- The initial window with the two entries filled in. -/
def windowWith (file1 file2 : String) : UI :=
  { initialUI with file1Entry := file1, file2Entry := file2 }

/-! ## Laws of the block-buffered digest -/

section DigestLaws

variable {σ : Type} (c : σ → List Byte → σ)

theorem blockLoop_append (m : Nat) : ∀ (k : Nat) (s : σ) (u v : List Byte),
    u.length = BlockSize * k →
    blockLoop c (k + m) s (u ++ v) = blockLoop c m (blockLoop c k s u) v := by
  intro k
  induction k with
  | zero =>
    intro s u v hu
    have : u = [] := List.length_eq_zero.mp (by simpa using hu)
    subst this
    simp [blockLoop]
  | succ k ih =>
    intro s u v hu
    have h64 : BlockSize ≤ u.length := by rw [hu]; exact Nat.le_mul_of_pos_right _ (Nat.succ_pos k)
    have e : k + 1 + m = (k + m) + 1 := by omega
    rw [e]
    simp only [blockLoop]
    rw [List.take_append_of_le_length h64, List.drop_append_of_le_length h64]
    apply ih
    rw [List.length_drop, hu]
    simp [BlockSize, Nat.mul_succ]

theorem blockLoop_prefix (k : Nat) (s : σ) (u v : List Byte) (hu : u.length = BlockSize * k) :
    blockLoop c k s (u ++ v) = blockLoop c k s u := by
  have h := blockLoop_append c 0 k s u v hu
  simpa [blockLoop] using h

theorem absorb_snd_length (s : σ) (buf : List Byte) :
    (absorb c s buf).2.length < BlockSize := by
  simp only [absorb, List.length_drop, BlockSize]
  omega

theorem absorb_short (s : σ) (buf : List Byte) (h : buf.length < BlockSize) :
    absorb c s buf = (s, buf) := by
  have : buf.length / BlockSize = 0 := Nat.div_eq_of_lt h
  simp [absorb, this, blockLoop]

theorem absorb_block_append (s : σ) (u v : List Byte) (hu : u.length = BlockSize) :
    absorb c s (u ++ v) = absorb c (c s u) v := by
  have hk : (u ++ v).length / BlockSize = 1 + v.length / BlockSize := by
    rw [List.length_append, hu]
    simp only [BlockSize]
    omega
  have h1 := blockLoop_append c (v.length / BlockSize) 1 s u v (by simp [hu])
  have hu1 : blockLoop c 1 s u = c s u := by
    simp only [blockLoop]
    rw [List.take_of_length_le (by omega)]
  simp only [absorb, hk]
  rw [h1, hu1]
  congr 1
  have : (1 + v.length / BlockSize) * BlockSize = u.length + v.length / BlockSize * BlockSize := by
    rw [hu]; ring
  rw [this, List.drop_append]

theorem block_take_whole (s : σ) (p : List Byte) :
    block c s (p.take (p.length / BlockSize * BlockSize)) = (absorb c s p).1 := by
  have hle : p.length / BlockSize * BlockSize ≤ p.length := Nat.div_mul_le_self _ _
  have hlen : (p.take (p.length / BlockSize * BlockSize)).length
      = BlockSize * (p.length / BlockSize) := by
    rw [List.length_take, Nat.min_eq_left hle, Nat.mul_comm]
  have hdiv : (p.take (p.length / BlockSize * BlockSize)).length / BlockSize
      = p.length / BlockSize := by
    rw [hlen]; exact Nat.mul_div_cancel_left _ (by decide)
  have h := blockLoop_prefix c (p.length / BlockSize) s
    (p.take (p.length / BlockSize * BlockSize)) (p.drop (p.length / BlockSize * BlockSize)) hlen
  rw [List.take_append_drop] at h
  simp only [block, absorb, hdiv]
  exact h.symm

theorem block_one (s : σ) (u : List Byte) (hu : u.length = BlockSize) :
    block c s u = c s u := by
  have : u.length / BlockSize = 1 := by rw [hu]; decide
  simp only [block, this, blockLoop]
  rw [List.take_of_length_le (by omega)]

theorem keep_nonempty (l : List Byte) : (if l.length > 0 then l else []) = l := by
  cases l <;> simp

theorem tail_phase (s : σ) (q : List Byte) :
    (if q.length ≥ BlockSize then
        (block c s (q.take (q.length / BlockSize * BlockSize)),
          q.drop (q.length / BlockSize * BlockSize))
      else (s, q)) = absorb c s q := by
  by_cases h : q.length ≥ BlockSize
  · rw [if_pos h, block_take_whole]
    rfl
  · rw [if_neg h, absorb_short c s q (by omega)]

theorem Digest.Write_eq_absorb (d : Digest σ) (p : List Byte) (hx : d.x.length < BlockSize) :
    Digest.Write c d p =
      { s := (absorb c d.s (d.x ++ p)).1, x := (absorb c d.s (d.x ++ p)).2,
        len := (d.len + p.length) % 2 ^ 64 } := by
  have hB : BlockSize = 64 := rfl
  by_cases hx0 : d.x.length > 0
  · by_cases hfull : (d.x ++ p.take (min (BlockSize - d.x.length) p.length)).length = BlockSize
    · have hsplit : d.x ++ p = (d.x ++ p.take (min (BlockSize - d.x.length) p.length))
          ++ p.drop (min (BlockSize - d.x.length) p.length) := by
        rw [List.append_assoc, List.take_append_drop]
      have hab := absorb_block_append c d.s _ (p.drop (min (BlockSize - d.x.length) p.length)) hfull
      rw [← hsplit] at hab
      simp only [Digest.Write, if_pos hx0, if_pos hfull, tail_phase, keep_nonempty]
      rw [block_one c d.s _ hfull, hab]
    · have hlen : (d.x ++ p.take (min (BlockSize - d.x.length) p.length)).length
          = d.x.length + min (BlockSize - d.x.length) p.length := by
        rw [List.length_append, List.length_take]
        omega
      have hn : min (BlockSize - d.x.length) p.length = p.length := by
        rw [hlen] at hfull
        omega
      have hshort : (d.x ++ p).length < BlockSize := by
        rw [hlen, hn] at hfull
        rw [List.length_append]
        omega
      have hx' : 0 < (d.x ++ p).length := by
        rw [List.length_append]
        omega
      simp only [Digest.Write, if_pos hx0, if_neg hfull, tail_phase]
      simp only [hn, List.take_length, List.drop_length, absorb_short c d.s [] (by decide),
        absorb_short c d.s (d.x ++ p) hshort]
      simp
  · have hnil : d.x = [] := List.length_eq_zero.mp (by omega)
    simp only [Digest.Write, if_neg hx0, tail_phase]
    rw [hnil]
    simp only [List.nil_append, keep_nonempty]

theorem absorb_absorb (v : List Byte) : ∀ (n : Nat) (s : σ) (u : List Byte), u.length ≤ n →
    absorb c (absorb c s u).1 ((absorb c s u).2 ++ v) = absorb c s (u ++ v) := by
  have hB : BlockSize = 64 := rfl
  intro n
  induction n with
  | zero =>
    intro s u hu
    rw [absorb_short c s u (by omega)]
  | succ n ih =>
    intro s u hu
    by_cases hs : u.length < BlockSize
    · rw [absorb_short c s u hs]
    · have ht : (u.take BlockSize).length = BlockSize := by
        rw [List.length_take]; omega
      have h1 := absorb_block_append c s (u.take BlockSize) (u.drop BlockSize) ht
      have h2 := absorb_block_append c s (u.take BlockSize) (u.drop BlockSize ++ v) ht
      rw [List.take_append_drop] at h1
      rw [← List.append_assoc, List.take_append_drop] at h2
      rw [h1, h2]
      apply ih
      rw [List.length_drop]
      omega

theorem absorb_snd_length_eq (s : σ) (buf : List Byte) :
    (absorb c s buf).2.length = buf.length % BlockSize := by
  simp only [absorb, List.length_drop, BlockSize]
  omega

theorem Digest.Write_x_length (d : Digest σ) (p : List Byte) (hd : d.Valid) :
    (Digest.Write c d p).x.length = (d.len + p.length) % BlockSize := by
  rw [Digest.Write_eq_absorb c d p hd.1]
  simp only
  rw [absorb_snd_length_eq, List.length_append, hd.2.2]
  simp only [BlockSize]
  omega

theorem Digest.Write_valid (d : Digest σ) (p : List Byte) (hd : d.Valid) :
    (Digest.Write c d p).Valid := by
  refine ⟨?_, ?_, ?_⟩
  · rw [Digest.Write_eq_absorb c d p hd.1]
    exact absorb_snd_length c d.s (d.x ++ p)
  · rw [Digest.Write_eq_absorb c d p hd.1]
    exact Nat.mod_lt _ (by decide)
  · rw [Digest.Write_x_length c d p hd, Digest.Write_eq_absorb c d p hd.1]
    simp only [BlockSize]
    omega

theorem Digest.Write_nil (d : Digest σ) (hd : d.Valid) : Digest.Write c d [] = d := by
  rw [Digest.Write_eq_absorb c d [] hd.1, List.append_nil, absorb_short c d.s d.x hd.1]
  have hlen : (d.len + ([] : List Byte).length) % 2 ^ 64 = d.len := by
    rw [List.length_nil, Nat.add_zero, Nat.mod_eq_of_lt hd.2.1]
  rw [hlen]

theorem Digest.Write_append (d : Digest σ) (a b : List Byte) (hd : d.Valid) :
    Digest.Write c (Digest.Write c d a) b = Digest.Write c d (a ++ b) := by
  rw [Digest.Write_eq_absorb c _ b (Digest.Write_valid c d a hd).1]
  rw [Digest.Write_eq_absorb c d a hd.1, Digest.Write_eq_absorb c d (a ++ b) hd.1]
  simp only
  rw [absorb_absorb c b _ d.s (d.x ++ a) (Nat.le_refl _), List.append_assoc]
  congr 1
  rw [List.length_append, Nat.mod_add_mod, Nat.add_assoc]

theorem Digest.foldl_Write : ∀ (chunks : List (List Byte)) (d : Digest σ), d.Valid →
    chunks.foldl (Digest.Write c) d = Digest.Write c d chunks.flatten := by
  intro chunks
  induction chunks with
  | nil => intro d hd; simp [Digest.Write_nil c d hd]
  | cons a rest ih =>
    intro d hd
    rw [List.foldl_cons, ih _ (Digest.Write_valid c d a hd), Digest.Write_append c d a _ hd]
    simp

end DigestLaws

/-! ## The two digests -/

theorem md5_New_valid : md5.New.Valid := by
  refine ⟨?_, ?_, ?_⟩ <;> decide

theorem sha256_New_valid : sha256.New.Valid := by
  refine ⟨?_, ?_, ?_⟩ <;> decide

/-- After the padding write of `checkSum` no byte is pending, so its `panic("d.nx != 0")` is
never reached. -/
theorem md5_padding_flushes (d : Digest md5.State) (hd : d.Valid) :
    (md5.Write d (md5.padding d.len)).x = [] := by
  apply List.length_eq_zero.mp
  rw [md5.Write, Digest.Write_x_length md5.compress d _ hd]
  have h2 := hd.2.1
  simp only [md5.padding, lePutUint64, lePutUint32, List.length_cons, List.length_append,
    List.length_replicate, List.length_nil, BlockSize]
  omega

/-- After the padding write of `checkSum` no byte is pending, so its `panic("d.nx != 0")` is
never reached. -/
theorem sha256_padding_flushes (d : Digest sha256.State) (hd : d.Valid) :
    (sha256.Write d (sha256.padding d.len)).x = [] := by
  apply List.length_eq_zero.mp
  rw [sha256.Write, Digest.Write_x_length sha256.compress d _ hd]
  simp only [sha256.padding, bePutUint64, bePutUint32, List.length_cons, List.length_append,
    List.length_replicate, List.length_nil, BlockSize]
  split <;> omega

theorem md5_foldl_Write (chunks : List (List Byte)) :
    chunks.foldl md5.Write md5.New = md5.Write md5.New chunks.flatten :=
  Digest.foldl_Write md5.compress chunks md5.New md5_New_valid

theorem sha256_foldl_Write (chunks : List (List Byte)) :
    chunks.foldl sha256.Write sha256.New = sha256.Write sha256.New chunks.flatten :=
  Digest.foldl_Write sha256.compress chunks sha256.New sha256_New_valid

theorem md5_Sum_length (d : Digest md5.State) : (md5.Sum d).length = 16 := by
  simp [md5.Sum, lePutUint32]

theorem sha256_Sum_length (d : Digest sha256.State) : (sha256.Sum d).length = 32 := by
  simp [sha256.Sum, bePutUint32]

/-! ## Hex encoding -/

theorem hex_Encode_length : ∀ src : List Byte, (hex.Encode src).length = 2 * src.length := by
  intro src
  induction src with
  | nil => rfl
  | cons v rest ih => simp only [hex.Encode, List.length_cons, ih]; omega

theorem hextable_getD_lower (i : Nat) : isLowerHex (hex.hextable.getD i '0') := by
  by_cases h : i < 16
  · interval_cases i <;> simp [hex.hextable, isLowerHex]
  · have : hex.hextable.getD i '0' = '0' := by
      rw [List.getD_eq_default]
      simp [hex.hextable]; omega
    rw [this]
    simp [isLowerHex]

theorem hex_Encode_lower : ∀ (src : List Byte) (ch : Char), ch ∈ hex.Encode src →
    isLowerHex ch := by
  intro src
  induction src with
  | nil => intro ch h; simp [hex.Encode] at h
  | cons v rest ih =>
    intro ch h
    simp only [hex.Encode, List.mem_cons] at h
    rcases h with h | h | h
    · rw [h]; exact hextable_getD_lower _
    · rw [h]; exact hextable_getD_lower _
    · exact ih ch h

theorem md5String_length (content : List Byte) : (md5String content).length = 32 := by
  simp [md5String, hex.EncodeToString, hex_Encode_length, md5_Sum_length]

theorem sha256String_length (content : List Byte) : (sha256String content).length = 64 := by
  simp [sha256String, hex.EncodeToString, hex_Encode_length, sha256_Sum_length]

theorem md5String_lower (content : List Byte) (ch : Char) (h : ch ∈ (md5String content).toList) :
    isLowerHex ch :=
  hex_Encode_lower _ ch h

theorem sha256String_lower (content : List Byte) (ch : Char)
    (h : ch ∈ (sha256String content).toList) : isLowerHex ch :=
  hex_Encode_lower _ ch h

/-! ## The copy loop -/

section CopyLoop

variable {σ : Type} (write : σ → List Byte → σ)

theorem ioCopy_eq (P : σ → Prop) (hP : ∀ s p, P s → P (write s p))
    (hnil : ∀ s, P s → write s [] = s) : ∀ (f : File) (s : σ), P s →
    ioCopy write s f = ((fileChunks f).foldl write s, fileError f) := by
  intro f
  induction f with
  | nil => intro s _; rfl
  | cons r rest ih =>
    intro s hs0
    have hs : (if r.data.length > 0 then write s r.data else s) = write s r.data := by
      by_cases h : r.data.length > 0
      · rw [if_pos h]
      · have : r.data = [] := List.length_eq_zero.mp (by omega)
        rw [if_neg h, this, hnil s hs0]
    cases her : r.er <;> simp [ioCopy, fileChunks, fileError, her, hs, ih _ (hP s r.data hs0)]

end CopyLoop

theorem multiWriter_foldl {α β : Type} (w1 : α → List Byte → α) (w2 : β → List Byte → β) :
    ∀ (chunks : List (List Byte)) (s : α × β),
      chunks.foldl (multiWriter w1 w2) s = (chunks.foldl w1 s.1, chunks.foldl w2 s.2) := by
  intro chunks
  induction chunks with
  | nil => intro s; rfl
  | cons c rest ih => intro s; simp [List.foldl_cons, ih, multiWriter]

/-! ## `computeHash`, characterised -/

theorem copy_both (f : File) :
    ioCopy (multiWriter md5.Write sha256.Write) (md5.New, sha256.New) f =
      (((fileChunks f).foldl md5.Write md5.New, (fileChunks f).foldl sha256.Write sha256.New),
        fileError f) := by
  rw [ioCopy_eq (multiWriter md5.Write sha256.Write) (fun s => s.1.Valid ∧ s.2.Valid)
    (fun s p hs => ⟨Digest.Write_valid md5.compress s.1 p hs.1,
      Digest.Write_valid sha256.compress s.2 p hs.2⟩)
    (fun s hs => by
      show (md5.Write s.1 [], sha256.Write s.2 []) = s
      rw [md5.Write, sha256.Write, Digest.Write_nil md5.compress s.1 hs.1,
        Digest.Write_nil sha256.compress s.2 hs.2])
    f (md5.New, sha256.New) ⟨md5_New_valid, sha256_New_valid⟩]
  rw [multiWriter_foldl]

theorem computeHash_snd (w : World) (p : String) :
    (computeHash w p).2 = { w with opened := w.opened ++ [p] } := by
  unfold computeHash osOpen
  cases w.files p with
  | error e => rfl
  | ok f =>
    simp only
    split <;> rfl

theorem computeHash_fst (w : World) (p : String) :
    (computeHash w p).1 = hashResult (w.files p) := by
  unfold computeHash osOpen
  cases hf : w.files p with
  | error e => rfl
  | ok f =>
    simp only [copy_both, hashResult]
    cases he : fileError f with
    | some e => rfl
    | none =>
      simp only [md5String, sha256String, fileContent, md5_foldl_Write, sha256_foldl_Write]

theorem computeHash_again (w : World) (p q : String) :
    (computeHash (computeHash w p).2 q).1 = (computeHash w q).1 := by
  rw [computeHash_fst, computeHash_fst, computeHash_snd]

/-! ## The `Compare Files` handler, field by field -/

theorem compareButton_display (ui : UI) (w : World)
    (hne : ¬(ui.file1Entry = "" ∧ ui.file2Entry = "")) :
    (compareButton ui w).1
      = compareDisplay ui (hashIfGiven w ui.file1Entry) (hashIfGiven w ui.file2Entry) := by
  have hag := computeHash_again w ui.file1Entry ui.file2Entry
  by_cases e1 : ui.file1Entry = ""
  · have e2 : ui.file2Entry ≠ "" := fun h => hne ⟨e1, h⟩
    simp only [compareButton, compareDisplay, hashIfGiven, e1, e2, ne_eq, not_true_eq_false,
      not_false_eq_true, if_true, if_false, false_and, true_and, and_false, and_true]
    split <;> rfl
  · by_cases e2 : ui.file2Entry = ""
    · simp only [compareButton, compareDisplay, hashIfGiven, e1, e2, ne_eq, not_true_eq_false,
        not_false_eq_true, if_true, if_false, false_and, true_and, and_false, and_true]
      split <;> rfl
    · simp only [compareButton, compareDisplay, hashIfGiven, e1, e2, hag, ne_eq,
        not_true_eq_false, not_false_eq_true, if_true, if_false, false_and, true_and, and_false,
        and_true, and_self]
      split <;> split <;> split <;> rfl

theorem compareButton_opened (ui : UI) (w : World) :
    (compareButton ui w).2.opened =
      if ui.file1Entry = "" ∧ ui.file2Entry = "" then w.opened
      else w.opened ++ (if ui.file1Entry ≠ "" then [ui.file1Entry] else [])
        ++ (if ui.file2Entry ≠ "" then [ui.file2Entry] else []) := by
  by_cases e1 : ui.file1Entry = "" <;> by_cases e2 : ui.file2Entry = "" <;>
    simp [compareButton, e1, e2, computeHash_snd]

/-! ## The `Compare Files` handler -/

/-- C1: with two non-empty paths on which `computeHash` succeeds, the status label reads
"The Files Are The Same" exactly when both the MD5 strings and the SHA256 strings are equal,
and "The Files Are Different" exactly when they are not; the label is shown. -/
theorem compare_verdict_iff_both_digests_equal (ui : UI) (w : World) (m1 s1 m2 s2 : String)
    (h1 : ui.file1Entry ≠ "") (h2 : ui.file2Entry ≠ "")
    (hc1 : (computeHash w ui.file1Entry).1 = (m1, s1, none))
    (hc2 : (computeHash w ui.file2Entry).1 = (m2, s2, none)) :
    ((compareButton ui w).1.statusText = "The Files Are The Same" ↔ (m1 = m2 ∧ s1 = s2)) ∧
    ((compareButton ui w).1.statusText = "The Files Are Different" ↔ ¬(m1 = m2 ∧ s1 = s2)) ∧
    (compareButton ui w).1.statusHidden = false := by
  have hc2' := computeHash_again w ui.file1Entry ui.file2Entry
  rw [hc2] at hc2'
  by_cases heq : m1 = m2 ∧ s1 = s2
  · simp [compareButton, h1, h2, hc1, hc2', heq]
  · simp [compareButton, h1, h2, hc1, hc2', heq]

/-- C1, at a concrete input: `a.txt` and `b.txt` both hold `abc`. -/
theorem compare_verdict_iff_both_digests_equal_witness :
    (windowWith "a.txt" "b.txt").file1Entry ≠ "" ∧ (windowWith "a.txt" "b.txt").file2Entry ≠ "" ∧
    (computeHash sampleWorld "a.txt").1
      = (md5String [0x61, 0x62, 0x63], sha256String [0x61, 0x62, 0x63], none) ∧
    (computeHash sampleWorld "b.txt").1
      = (md5String [0x61, 0x62, 0x63], sha256String [0x61, 0x62, 0x63], none) ∧
    (((compareButton (windowWith "a.txt" "b.txt") sampleWorld).1.statusText
        = "The Files Are The Same" ↔
      (md5String [0x61, 0x62, 0x63] = md5String [0x61, 0x62, 0x63] ∧
        sha256String [0x61, 0x62, 0x63] = sha256String [0x61, 0x62, 0x63])) ∧
    ((compareButton (windowWith "a.txt" "b.txt") sampleWorld).1.statusText
        = "The Files Are Different" ↔
      ¬(md5String [0x61, 0x62, 0x63] = md5String [0x61, 0x62, 0x63] ∧
        sha256String [0x61, 0x62, 0x63] = sha256String [0x61, 0x62, 0x63])) ∧
    (compareButton (windowWith "a.txt" "b.txt") sampleWorld).1.statusHidden = false) :=
  have ha : (computeHash sampleWorld "a.txt").1
      = (md5String [0x61, 0x62, 0x63], sha256String [0x61, 0x62, 0x63], none) := by
    rw [computeHash_fst]; rfl
  have hb : (computeHash sampleWorld "b.txt").1
      = (md5String [0x61, 0x62, 0x63], sha256String [0x61, 0x62, 0x63], none) := by
    rw [computeHash_fst]; rfl
  ⟨by decide, by decide, ha, hb,
    compare_verdict_iff_both_digests_equal (windowWith "a.txt" "b.txt") sampleWorld _ _ _ _
      (by decide) (by decide) ha hb⟩

/-- C3: with two non-empty paths, when `computeHash` succeeds on one file and fails on the
other (in either position), the labels of the succeeding file read its MD5 and SHA256 strings
exactly as `computeHash` returned them. -/
theorem compare_reports_succeeding_file (ui : UI) (w : World) (m s : String) (e : Error)
    (h1 : ui.file1Entry ≠ "") (h2 : ui.file2Entry ≠ "") :
    ((computeHash w ui.file1Entry).1 = (m, s, none) →
      (computeHash w ui.file2Entry).1.2.2 = some e →
      (compareButton ui w).1.md5Label1 = "MD5 (File 1): " ++ m ∧
      (compareButton ui w).1.sha256Label1 = "SHA256 (File 1): " ++ s) ∧
    ((computeHash w ui.file2Entry).1 = (m, s, none) →
      (computeHash w ui.file1Entry).1.2.2 = some e →
      (compareButton ui w).1.md5Label2 = "MD5 (File 2): " ++ m ∧
      (compareButton ui w).1.sha256Label2 = "SHA256 (File 2): " ++ s) := by
  have hag := computeHash_again w ui.file1Entry ui.file2Entry
  constructor
  · intro hok hfail
    rw [← hag] at hfail
    simp only [compareButton, h1, h2, hok, hfail, ne_eq, not_false_eq_true, and_self, and_false,
      false_and, if_true, if_false, reduceCtorEq]
    constructor <;> split <;> rfl
  · intro hok hfail
    rw [← hag] at hok
    simp only [compareButton, h1, h2, hok, hfail, ne_eq, not_false_eq_true, and_self, and_false,
      false_and, if_true, if_false, reduceCtorEq]
    constructor <;> split <;> rfl

/-- C3, at concrete inputs: `a.txt` is readable and `missing.txt` does not exist, in both
orders. -/
theorem compare_reports_succeeding_file_witness :
    ((compareButton (windowWith "a.txt" "missing.txt") sampleWorld).1.md5Label1
        = "MD5 (File 1): " ++ md5String [0x61, 0x62, 0x63] ∧
      (compareButton (windowWith "a.txt" "missing.txt") sampleWorld).1.sha256Label1
        = "SHA256 (File 1): " ++ sha256String [0x61, 0x62, 0x63]) ∧
    ((compareButton (windowWith "missing.txt" "a.txt") sampleWorld).1.md5Label2
        = "MD5 (File 2): " ++ md5String [0x61, 0x62, 0x63] ∧
      (compareButton (windowWith "missing.txt" "a.txt") sampleWorld).1.sha256Label2
        = "SHA256 (File 2): " ++ sha256String [0x61, 0x62, 0x63]) :=
  have ha : (computeHash sampleWorld "a.txt").1
      = (md5String [0x61, 0x62, 0x63], sha256String [0x61, 0x62, 0x63], none) := by
    rw [computeHash_fst]; rfl
  have hm : (computeHash sampleWorld "missing.txt").1.2.2
      = some ⟨"open: no such file or directory"⟩ := by
    rw [computeHash_fst]; rfl
  ⟨(compare_reports_succeeding_file (windowWith "a.txt" "missing.txt") sampleWorld _ _ _
      (by decide) (by decide)).1 ha hm,
   (compare_reports_succeeding_file (windowWith "missing.txt" "a.txt") sampleWorld _ _ _
      (by decide) (by decide)).2 ha hm⟩

/-- C5: two paths whose files are readable and hold the same byte sequence get the same
`(MD5, SHA256, nil)` triple from `computeHash`, a function of the content alone; with the two
paths in the entries (non-empty, as the name of a file is) the `Compare Files` handler reports
"The Files Are The Same". -/
theorem same_content_same_digests (w : World) (p1 p2 : String) (f1 f2 : File)
    (hf1 : w.files p1 = Except.ok f1) (hf2 : w.files p2 = Except.ok f2)
    (hr1 : fileError f1 = none) (hr2 : fileError f2 = none)
    (hc : fileContent f1 = fileContent f2) :
    (computeHash w p1).1 = (md5String (fileContent f1), sha256String (fileContent f1), none) ∧
    (computeHash w p2).1 = (computeHash w p1).1 ∧
    ∀ ui : UI, ui.file1Entry = p1 → ui.file2Entry = p2 → p1 ≠ "" → p2 ≠ "" →
      (compareButton ui w).1.statusText = "The Files Are The Same" ∧
      (compareButton ui w).1.statusHidden = false := by
  have e1 : (computeHash w p1).1
      = (md5String (fileContent f1), sha256String (fileContent f1), none) := by
    rw [computeHash_fst, hf1]; simp [hashResult, hr1]
  have e2 : (computeHash w p2).1
      = (md5String (fileContent f1), sha256String (fileContent f1), none) := by
    rw [computeHash_fst, hf2]; simp [hashResult, hr2, hc]
  refine ⟨e1, e2.trans e1.symm, ?_⟩
  intro ui hu1 hu2 hn1 hn2
  subst hu1 hu2
  have hne : ¬(ui.file1Entry = "" ∧ ui.file2Entry = "") := fun h => hn1 h.1
  rw [compareButton_display ui w hne]
  simp [compareDisplay, hashIfGiven, hn1, hn2, e1, e2]

/-- C5, at a concrete input: `a.txt` (read in two chunks) and `b.txt` (read in one) both hold
`abc`. -/
theorem same_content_same_digests_witness :
    (computeHash sampleWorld "b.txt").1 = (computeHash sampleWorld "a.txt").1 ∧
    (compareButton (windowWith "a.txt" "b.txt") sampleWorld).1.statusText
      = "The Files Are The Same" :=
  have h := same_content_same_digests sampleWorld "a.txt" "b.txt"
    (fileOfChunks [[0x61], [0x62, 0x63]]) (fileOfChunks [[0x61, 0x62, 0x63]])
    rfl rfl rfl rfl rfl
  ⟨h.2.1, (h.2.2 (windowWith "a.txt" "b.txt") rfl rfl (by decide) (by decide)).1⟩

/-- C6: `computeHash` returns one of two shapes, never a mix, and which one is fixed by the
file. When `os.Open` fails with `e` it returns two empty strings and `e`. When the file opens
and a `Read` fails with `e` it returns two empty strings and `e`, whatever was read before the
failure. When the file opens and every `Read` up to `io.EOF` succeeds it returns a nil error,
the MD5 string of the whole content (32 characters) and its SHA256 string (64 characters),
both made of `0`-`9`, `a`-`f` only. Hence every result is a nil error with two full-length
lowercase hex strings, or a non-nil error with two empty strings. -/
theorem computeHash_shape (w : World) (p : String) :
    (∀ e : Error, w.files p = Except.error e → (computeHash w p).1 = ("", "", some e)) ∧
    (∀ (f : File) (e : Error), w.files p = Except.ok f → fileError f = some e →
      (computeHash w p).1 = ("", "", some e)) ∧
    (∀ f : File, w.files p = Except.ok f → fileError f = none →
      (computeHash w p).1 = (md5String (fileContent f), sha256String (fileContent f), none) ∧
      (computeHash w p).1.1.length = 32 ∧ (computeHash w p).1.2.1.length = 64 ∧
      (∀ ch ∈ (computeHash w p).1.1.toList, isLowerHex ch) ∧
      (∀ ch ∈ (computeHash w p).1.2.1.toList, isLowerHex ch)) ∧
    (((computeHash w p).1.2.2 = none ∧
        (computeHash w p).1.1.length = 32 ∧ (computeHash w p).1.2.1.length = 64 ∧
        (∀ ch ∈ (computeHash w p).1.1.toList, isLowerHex ch) ∧
        (∀ ch ∈ (computeHash w p).1.2.1.toList, isLowerHex ch)) ∨
      (∃ e : Error, (computeHash w p).1 = ("", "", some e) ∧
        (w.files p = Except.error e ∨
          ∃ f, w.files p = Except.ok f ∧ fileError f = some e))) := by
  rw [computeHash_fst]
  refine ⟨?_, ?_, ?_, ?_⟩
  · intro e he
    rw [he]; rfl
  · intro f e hf he
    rw [hf]
    simp [hashResult, he]
  · intro f hf he
    rw [hf]
    simp only [hashResult, he]
    exact ⟨trivial, md5String_length _, sha256String_length _, md5String_lower _,
      sha256String_lower _⟩
  · cases hf : w.files p with
    | error e => exact Or.inr ⟨e, rfl, Or.inl rfl⟩
    | ok f =>
      cases he : fileError f with
      | some e =>
        refine Or.inr ⟨e, ?_, Or.inr ⟨f, rfl, he⟩⟩
        simp [hashResult, he]
      | none =>
        refine Or.inl ?_
        simp only [hashResult, he]
        exact ⟨trivial, md5String_length _, sha256String_length _, md5String_lower _,
          sha256String_lower _⟩

/-- C6, at concrete inputs: `missing.txt` cannot be opened, `c.txt` delivers one byte and then
a read error, `a.txt` is read to its end in two chunks. -/
theorem computeHash_shape_witness :
    (computeHash sampleWorld "missing.txt").1
      = ("", "", some ⟨"open: no such file or directory"⟩) ∧
    (computeHash sampleWorld "c.txt").1
      = ("", "", some ⟨"read c.txt: input/output error"⟩) ∧
    ((computeHash sampleWorld "a.txt").1
        = (md5String [0x61, 0x62, 0x63], sha256String [0x61, 0x62, 0x63], none) ∧
      (computeHash sampleWorld "a.txt").1.1.length = 32 ∧
      (computeHash sampleWorld "a.txt").1.2.1.length = 64) :=
  have hc := (computeHash_shape sampleWorld "a.txt").2.2.1
    (fileOfChunks [[0x61], [0x62, 0x63]]) rfl rfl
  ⟨(computeHash_shape sampleWorld "missing.txt").1 _ rfl,
   (computeHash_shape sampleWorld "c.txt").2.1 _ _ rfl rfl,
   hc.1, hc.2.1, hc.2.2.1⟩

/-- C7: for every way the reads split a content into chunks, the copy loop leaves both
accumulators in the state reached by writing every chunk, in order, to a fresh digest, and
the strings `computeHash` returns are those it returns for a file delivering the whole
content in a single chunk. -/
theorem chunking_transparent (chunks : List (List Byte)) (w1 w2 : World) (p1 p2 : String)
    (hf1 : w1.files p1 = Except.ok (fileOfChunks chunks))
    (hf2 : w2.files p2 = Except.ok (fileOfChunks [chunks.flatten])) :
    ioCopy (multiWriter md5.Write sha256.Write) (md5.New, sha256.New) (fileOfChunks chunks)
      = ((chunks.foldl md5.Write md5.New, chunks.foldl sha256.Write sha256.New), none) ∧
    (computeHash w1 p1).1 = (computeHash w2 p2).1 ∧
    (computeHash w1 p1).1 = (md5String chunks.flatten, sha256String chunks.flatten, none) := by
  have hch : ∀ cs : List (List Byte), fileChunks (fileOfChunks cs) = cs := by
    intro cs
    induction cs with
    | nil => rfl
    | cons c rest ih => simp only [fileOfChunks, List.map_cons, fileChunks]; exact congrArg _ ih
  have her : ∀ cs : List (List Byte), fileError (fileOfChunks cs) = none := by
    intro cs
    induction cs with
    | nil => rfl
    | cons c rest ih => simp only [fileOfChunks, List.map_cons, fileError]; exact ih
  have e1 : (computeHash w1 p1).1
      = (md5String chunks.flatten, sha256String chunks.flatten, none) := by
    rw [computeHash_fst, hf1]; simp [hashResult, her, fileContent, hch]
  have e2 : (computeHash w2 p2).1
      = (md5String chunks.flatten, sha256String chunks.flatten, none) := by
    rw [computeHash_fst, hf2]; simp [hashResult, her, fileContent, hch]
  refine ⟨?_, e1.trans e2.symm, e1⟩
  rw [copy_both, hch, her]

/-- C7, at a concrete input: `abc` read as `a` then `bc` (`a.txt`) against `abc` read at once
(`b.txt`). -/
theorem chunking_transparent_witness :
    (computeHash sampleWorld "a.txt").1 = (computeHash sampleWorld "b.txt").1 :=
  (chunking_transparent [[0x61], [0x62, 0x63]] sampleWorld sampleWorld "a.txt" "b.txt"
    rfl rfl).2.1

/-- C8: with both entries empty, each handler shows its no-input error, leaves the world
untouched (no `os.Open`, hence no `computeHash` call), and leaves the four digest labels and the
comparison status as they were. -/
theorem no_input_reports_error_only (ui : UI) (w : World)
    (h1 : ui.file1Entry = "") (h2 : ui.file2Entry = "") :
    ((compareButton ui w).1.errorDialogs = ui.errorDialogs ++ [⟨"no files selected"⟩] ∧
      (compareButton ui w).2.opened = w.opened ∧
      digestLabels (compareButton ui w).1 = digestLabels ui ∧
      comparisonStatus (compareButton ui w).1 = comparisonStatus ui) ∧
    ((computeButton ui w).1.errorDialogs = ui.errorDialogs ++ [⟨"no file selected"⟩] ∧
      (computeButton ui w).2.opened = w.opened ∧
      digestLabels (computeButton ui w).1 = digestLabels ui ∧
      comparisonStatus (computeButton ui w).1 = comparisonStatus ui) := by
  simp [compareButton, computeButton, h1, h2, ShowError, digestLabels, comparisonStatus]

/-- C8, at a concrete input: the window as `main` builds it, both entries empty. -/
theorem no_input_reports_error_only_witness :
    (compareButton initialUI sampleWorld).1.errorDialogs = [⟨"no files selected"⟩] ∧
    (compareButton initialUI sampleWorld).2.opened = [] ∧
    (computeButton initialUI sampleWorld).1.errorDialogs = [⟨"no file selected"⟩] ∧
    (computeButton initialUI sampleWorld).2.opened = [] :=
  have h := no_input_reports_error_only initialUI sampleWorld rfl rfl
  ⟨h.1.1, h.1.2.1, h.2.1, h.2.2.1⟩

/-- C2, the code at the failing inputs: with two paths that both fail to open the handler
reports "The Files Are The Same", and with one readable and one missing file it reports
"The Files Are Different"; in neither run is an error shown. -/
theorem compare_failure_still_gives_verdict :
    ((computeHash sampleWorld "missing1.txt").1
        = ("", "", some ⟨"open: no such file or directory"⟩) ∧
      (computeHash sampleWorld "missing2.txt").1
        = ("", "", some ⟨"open: no such file or directory"⟩) ∧
      (compareButton (windowWith "missing1.txt" "missing2.txt") sampleWorld).1.statusText
        = "The Files Are The Same" ∧
      (compareButton (windowWith "missing1.txt" "missing2.txt") sampleWorld).1.errorDialogs = []) ∧
    ((computeHash sampleWorld "a.txt").1.2.2 = none ∧
      (compareButton (windowWith "a.txt" "missing2.txt") sampleWorld).1.statusText
        = "The Files Are Different" ∧
      (compareButton (windowWith "a.txt" "missing2.txt") sampleWorld).1.errorDialogs = []) := by
  have ha : (computeHash sampleWorld "a.txt").1
      = (md5String [0x61, 0x62, 0x63], sha256String [0x61, 0x62, 0x63], none) := by
    rw [computeHash_fst]; rfl
  have hm : (computeHash sampleWorld "missing2.txt").1
      = ("", "", some ⟨"open: no such file or directory"⟩) := by
    rw [computeHash_fst]; rfl
  have hne : ¬ md5String [0x61, 0x62, 0x63] = "" := by
    intro h
    have := md5String_length [0x61, 0x62, 0x63]
    rw [h] at this
    exact absurd this (by decide)
  have e1 : (windowWith "a.txt" "missing2.txt").file1Entry = "a.txt" := rfl
  have e2 : (windowWith "a.txt" "missing2.txt").file2Entry = "missing2.txt" := rfl
  have hd := compareButton_display (windowWith "a.txt" "missing2.txt") sampleWorld (by decide)
  refine ⟨by decide, ?_, ?_, ?_⟩
  · rw [ha]
  · rw [hd]
    simp [compareDisplay, hashIfGiven, e1, e2, ha, hm, hne]
  · rw [hd]
    rfl

/-- C4, the code at the failing input: with only file 1 given and `computeHash` failing on
it, the handler shows no error at all: no dialog, the digest labels as before, and the status
"Comparison requires two files". -/
theorem compare_single_failure_is_silent :
    (computeHash sampleWorld "missing.txt").1
      = ("", "", some ⟨"open: no such file or directory"⟩) ∧
    (compareButton (windowWith "missing.txt" "") sampleWorld).1.errorDialogs = [] ∧
    digestLabels (compareButton (windowWith "missing.txt" "") sampleWorld).1
      = digestLabels (windowWith "missing.txt" "") ∧
    (compareButton (windowWith "missing.txt" "") sampleWorld).1.statusText
      = "Comparison requires two files" ∧
    (compareButton (windowWith "missing.txt" "") sampleWorld).2.opened = ["missing.txt"] := by
  decide

/-- C9, refuted as stated: the same two paths (`missing.txt`, which cannot be opened, and
`a.txt`) in the same world, started from two windows that differ only in the digest shown for
file 1, end with different digests displayed for file 1. -/
theorem compare_result_depends_on_previous_display :
    (windowWith "missing.txt" "a.txt").file1Entry
      = ({ windowWith "missing.txt" "a.txt" with
            md5Label1 := "MD5 (File 1): d41d8cd98f00b204e9800998ecf8427e" }).file1Entry ∧
    (windowWith "missing.txt" "a.txt").file2Entry
      = ({ windowWith "missing.txt" "a.txt" with
            md5Label1 := "MD5 (File 1): d41d8cd98f00b204e9800998ecf8427e" }).file2Entry ∧
    (compareButton (windowWith "missing.txt" "a.txt") sampleWorld).1.md5Label1
      = "MD5 (File 1):" ∧
    (compareButton ({ windowWith "missing.txt" "a.txt" with
        md5Label1 := "MD5 (File 1): d41d8cd98f00b204e9800998ecf8427e" }) sampleWorld).1.md5Label1
      = "MD5 (File 1): d41d8cd98f00b204e9800998ecf8427e" ∧
    (compareButton (windowWith "missing.txt" "a.txt") sampleWorld).1.md5Label1
      ≠ (compareButton ({ windowWith "missing.txt" "a.txt" with
        md5Label1 := "MD5 (File 1): d41d8cd98f00b204e9800998ecf8427e" }) sampleWorld).1.md5Label1 := by
  have hm : (computeHash sampleWorld "missing.txt").1
      = ("", "", some ⟨"open: no such file or directory"⟩) := by
    rw [computeHash_fst]; rfl
  have key : ∀ ui : UI, ui.file1Entry = "missing.txt" → ui.file2Entry = "a.txt" →
      (compareButton ui sampleWorld).1.md5Label1 = ui.md5Label1 := by
    intro ui e1 e2
    have hne : ¬(ui.file1Entry = "" ∧ ui.file2Entry = "") := by
      intro h
      rw [e1] at h
      exact absurd h.1 (by decide)
    rw [compareButton_display ui sampleWorld hne]
    simp [compareDisplay, hashIfGiven, e1, hm]
  refine ⟨rfl, rfl, ?_, ?_, ?_⟩
  · rw [key _ rfl rfl]; rfl
  · rw [key _ rfl rfl]
  · rw [key _ rfl rfl, key _ rfl rfl]
    decide

/-- C9, amended: take two windows holding the same two paths, and one world. If both paths
are empty a run changes neither the digest labels nor the comparison status of either window.
Otherwise both runs end with the same comparison status (verdict text, colour, shown), and
for each file: when its path is non-empty and `computeHash` succeeds on it, both windows show
the same two digests for it (those `computeHash` returned); when its path is empty or
`computeHash` fails on it, each window keeps the two digest texts it showed before. -/
theorem compare_result_determined_where_updated (ui1 ui2 : UI) (w : World)
    (h1 : ui1.file1Entry = ui2.file1Entry) (h2 : ui1.file2Entry = ui2.file2Entry) :
    if ui1.file1Entry = "" ∧ ui1.file2Entry = "" then
      (digestLabels (compareButton ui1 w).1 = digestLabels ui1 ∧
        comparisonStatus (compareButton ui1 w).1 = comparisonStatus ui1) ∧
      (digestLabels (compareButton ui2 w).1 = digestLabels ui2 ∧
        comparisonStatus (compareButton ui2 w).1 = comparisonStatus ui2)
    else
      comparisonStatus (compareButton ui1 w).1 = comparisonStatus (compareButton ui2 w).1 ∧
      (if ui1.file1Entry ≠ "" ∧ (computeHash w ui1.file1Entry).1.2.2 = none then
        (compareButton ui1 w).1.md5Label1
          = "MD5 (File 1): " ++ (computeHash w ui1.file1Entry).1.1 ∧
        (compareButton ui2 w).1.md5Label1 = (compareButton ui1 w).1.md5Label1 ∧
        (compareButton ui1 w).1.sha256Label1
          = "SHA256 (File 1): " ++ (computeHash w ui1.file1Entry).1.2.1 ∧
        (compareButton ui2 w).1.sha256Label1 = (compareButton ui1 w).1.sha256Label1
      else
        (compareButton ui1 w).1.md5Label1 = ui1.md5Label1 ∧
        (compareButton ui1 w).1.sha256Label1 = ui1.sha256Label1 ∧
        (compareButton ui2 w).1.md5Label1 = ui2.md5Label1 ∧
        (compareButton ui2 w).1.sha256Label1 = ui2.sha256Label1) ∧
      (if ui1.file2Entry ≠ "" ∧ (computeHash w ui1.file2Entry).1.2.2 = none then
        (compareButton ui1 w).1.md5Label2
          = "MD5 (File 2): " ++ (computeHash w ui1.file2Entry).1.1 ∧
        (compareButton ui2 w).1.md5Label2 = (compareButton ui1 w).1.md5Label2 ∧
        (compareButton ui1 w).1.sha256Label2
          = "SHA256 (File 2): " ++ (computeHash w ui1.file2Entry).1.2.1 ∧
        (compareButton ui2 w).1.sha256Label2 = (compareButton ui1 w).1.sha256Label2
      else
        (compareButton ui1 w).1.md5Label2 = ui1.md5Label2 ∧
        (compareButton ui1 w).1.sha256Label2 = ui1.sha256Label2 ∧
        (compareButton ui2 w).1.md5Label2 = ui2.md5Label2 ∧
        (compareButton ui2 w).1.sha256Label2 = ui2.sha256Label2) := by
  by_cases hb : ui1.file1Entry = "" ∧ ui1.file2Entry = ""
  · have hb2 : ui2.file1Entry = "" ∧ ui2.file2Entry = "" := by rw [← h1, ← h2]; exact hb
    rw [if_pos hb]
    simp [compareButton, hb.1, hb.2, hb2.1, hb2.2, ShowError, digestLabels, comparisonStatus]
  · have hb2 : ¬(ui2.file1Entry = "" ∧ ui2.file2Entry = "") := by rw [← h1, ← h2]; exact hb
    rw [if_neg hb, compareButton_display ui1 w hb, compareButton_display ui2 w hb2, ← h1, ← h2]
    refine ⟨?_, ?_, ?_⟩
    · simp only [comparisonStatus, compareDisplay, ← h1, ← h2]
    · by_cases c : ui1.file1Entry ≠ "" ∧ (computeHash w ui1.file1Entry).1.2.2 = none
      · have c' : ui1.file1Entry ≠ "" ∧ (hashIfGiven w ui1.file1Entry).2.2 = none := by
          simpa [hashIfGiven, c.1] using c
        have hh : hashIfGiven w ui1.file1Entry = (computeHash w ui1.file1Entry).1 := by
          simp [hashIfGiven, c.1]
        rw [if_pos c]
        simp only [compareDisplay, ← h1, hh, if_pos c, and_self]
      · have c' : ¬(ui1.file1Entry ≠ "" ∧ (hashIfGiven w ui1.file1Entry).2.2 = none) := by
          intro hc
          apply c
          refine ⟨hc.1, ?_⟩
          simpa [hashIfGiven, hc.1] using hc.2
        rw [if_neg c]
        simp only [compareDisplay, ← h1, if_neg c', and_self]
    · by_cases c : ui1.file2Entry ≠ "" ∧ (computeHash w ui1.file2Entry).1.2.2 = none
      · have c' : ui1.file2Entry ≠ "" ∧ (hashIfGiven w ui1.file2Entry).2.2 = none := by
          simpa [hashIfGiven, c.1] using c
        have hh : hashIfGiven w ui1.file2Entry = (computeHash w ui1.file2Entry).1 := by
          simp [hashIfGiven, c.1]
        rw [if_pos c]
        simp only [compareDisplay, ← h2, hh, if_pos c, and_self]
      · have c' : ¬(ui1.file2Entry ≠ "" ∧ (hashIfGiven w ui1.file2Entry).2.2 = none) := by
          intro hc
          apply c
          refine ⟨hc.1, ?_⟩
          simpa [hashIfGiven, hc.1] using hc.2
        rw [if_neg c]
        simp only [compareDisplay, ← h2, if_neg c', and_self]

/-- C9 amended, at a concrete input: `missing.txt` and `a.txt`, from the initial window and
from a window that already shows a digest for file 1. -/
theorem compare_result_determined_where_updated_witness :
    comparisonStatus (compareButton (windowWith "missing.txt" "a.txt") sampleWorld).1
      = comparisonStatus (compareButton ({ windowWith "missing.txt" "a.txt" with
          md5Label1 := "MD5 (File 1): d41d8cd98f00b204e9800998ecf8427e" }) sampleWorld).1 ∧
    (compareButton ({ windowWith "missing.txt" "a.txt" with
        md5Label1 := "MD5 (File 1): d41d8cd98f00b204e9800998ecf8427e" }) sampleWorld).1.md5Label2
      = (compareButton (windowWith "missing.txt" "a.txt") sampleWorld).1.md5Label2 :=
  have ha : (computeHash sampleWorld "a.txt").1.2.2 = none := by
    rw [computeHash_fst]; rfl
  have h := compare_result_determined_where_updated (windowWith "missing.txt" "a.txt")
    ({ windowWith "missing.txt" "a.txt" with
        md5Label1 := "MD5 (File 1): d41d8cd98f00b204e9800998ecf8427e" }) sampleWorld rfl rfl
  have h' := (if_neg (by decide)).mp h
  ⟨h'.1, ((if_pos ⟨by decide, ha⟩).mp h'.2.2).2.1⟩

/-! ## The `Compute Hash` handler -/

/-- C10: in the `Compute Hash` handler with two non-empty paths, a failure of `computeHash` on
file 1 is shown and ends the handler: `os.Open` was called once, on file 1 (so `computeHash`
never ran on file 2), and all four digest labels are as before; when file 1 succeeds and
file 2 fails, the labels of file 1 hold its new digests and the labels of file 2 are as
before. -/
theorem compute_stops_at_first_error (ui : UI) (w : World)
    (h1 : ui.file1Entry ≠ "") (h2 : ui.file2Entry ≠ "") :
    (∀ e : Error, (computeHash w ui.file1Entry).1.2.2 = some e →
      (computeButton ui w).1.errorDialogs = ui.errorDialogs ++ [e] ∧
      (computeButton ui w).2.opened = w.opened ++ [ui.file1Entry] ∧
      digestLabels (computeButton ui w).1 = digestLabels ui) ∧
    (∀ (m s : String) (e : Error), (computeHash w ui.file1Entry).1 = (m, s, none) →
      (computeHash w ui.file2Entry).1.2.2 = some e →
      (computeButton ui w).1.md5Label1 = "MD5 (File 1): " ++ m ∧
      (computeButton ui w).1.sha256Label1 = "SHA256 (File 1): " ++ s ∧
      (computeButton ui w).1.md5Label2 = ui.md5Label2 ∧
      (computeButton ui w).1.sha256Label2 = ui.sha256Label2 ∧
      (computeButton ui w).1.errorDialogs = ui.errorDialogs ++ [e]) := by
  have hag := computeHash_again w ui.file1Entry ui.file2Entry
  have hw := computeHash_snd w ui.file1Entry
  constructor
  · intro e he
    rcases hc : computeHash w ui.file1Entry with ⟨⟨a, b, err⟩, w1⟩
    rw [hc] at he hw
    simp only at he hw
    subst he
    simp [computeButton, h1, h2, hc, ShowError, digestLabels, hw]
  · intro m s e hok hfail
    rw [← hag] at hfail
    rcases hc : computeHash w ui.file1Entry with ⟨⟨a, b, err⟩, w1⟩
    rw [hc] at hok hfail
    simp only [Prod.mk.injEq] at hok
    obtain ⟨rfl, rfl, rfl⟩ := hok
    rcases hc2 : computeHash w1 ui.file2Entry with ⟨⟨a2, b2, err2⟩, w2⟩
    rw [hc2] at hfail
    simp only at hfail
    subst hfail
    simp [computeButton, h1, h2, hc, hc2, ShowError]

/-- C10, at concrete inputs: `missing.txt` then `a.txt`, and `a.txt` then `missing.txt`. -/
theorem compute_stops_at_first_error_witness :
    ((computeButton (windowWith "missing.txt" "a.txt") sampleWorld).1.errorDialogs
        = [⟨"open: no such file or directory"⟩] ∧
      (computeButton (windowWith "missing.txt" "a.txt") sampleWorld).2.opened = ["missing.txt"] ∧
      digestLabels (computeButton (windowWith "missing.txt" "a.txt") sampleWorld).1
        = digestLabels (windowWith "missing.txt" "a.txt")) ∧
    ((computeButton (windowWith "a.txt" "missing.txt") sampleWorld).1.md5Label1
        = "MD5 (File 1): " ++ md5String [0x61, 0x62, 0x63] ∧
      (computeButton (windowWith "a.txt" "missing.txt") sampleWorld).1.md5Label2
        = "MD5 (File 2):") :=
  have ha : (computeHash sampleWorld "a.txt").1
      = (md5String [0x61, 0x62, 0x63], sha256String [0x61, 0x62, 0x63], none) := by
    rw [computeHash_fst]; rfl
  have hm : (computeHash sampleWorld "missing.txt").1.2.2
      = some ⟨"open: no such file or directory"⟩ := by
    rw [computeHash_fst]; rfl
  have hA := (compute_stops_at_first_error (windowWith "missing.txt" "a.txt") sampleWorld
    (by decide) (by decide)).1 _ hm
  have hB := (compute_stops_at_first_error (windowWith "a.txt" "missing.txt") sampleWorld
    (by decide) (by decide)).2 _ _ _ ha hm
  ⟨hA, hB.1, hB.2.2.1⟩

/-! ## Test vectors

The digests of the empty input and of `abc`, as published for MD5 and SHA-256 and as the
program prints them; the last one runs `computeHash` on the file read in two chunks. -/

set_option maxRecDepth 1000000 in
theorem md5String_empty : md5String [] = "d41d8cd98f00b204e9800998ecf8427e" := by
  decide!

set_option maxRecDepth 1000000 in
theorem md5String_abc : md5String [0x61, 0x62, 0x63] = "900150983cd24fb0d6963f7d28e17f72" := by
  decide!

set_option maxRecDepth 1000000 in
theorem sha256String_empty :
    sha256String [] = "e3b0c44298fc1c149afbf4c8996fb92427ae41e4649b934ca495991b7852b855" := by
  decide!

set_option maxRecDepth 1000000 in
theorem sha256String_abc :
    sha256String [0x61, 0x62, 0x63]
      = "ba7816bf8f01cfea414140de5dae2223b00361a396177a9cb410ff61f20015ad" := by
  decide!

set_option maxRecDepth 1000000 in
theorem computeHash_abc_in_two_chunks :
    (computeHash sampleWorld "a.txt").1
      = ("900150983cd24fb0d6963f7d28e17f72",
         "ba7816bf8f01cfea414140de5dae2223b00361a396177a9cb410ff61f20015ad", none) := by
  decide!

set_option maxRecDepth 1000000 in
theorem md5_two_hundred_bytes_in_three_writes :
    hex.EncodeToString (md5.Sum (md5.Write (md5.Write (md5.Write md5.New
      (List.replicate 50 0x61)) (List.replicate 100 0x61)) (List.replicate 50 0x61)))
      = "887f30b43b2867f4a9accceee7d16e6c" := by
  decide!

set_option maxRecDepth 1000000 in
theorem sha256_two_hundred_bytes_in_three_writes :
    hex.EncodeToString (sha256.Sum (sha256.Write (sha256.Write (sha256.Write sha256.New
      (List.replicate 50 0x61)) (List.replicate 100 0x61)) (List.replicate 50 0x61)))
      = "c2a908d98f5df987ade41b5fce213067efbcc21ef2240212a41e54b5e7c28ae5" := by
  decide!

end HashComparer
